import Mathlib

/-!
Shallow embedding of the core state and operations of `crypto_bot.py`
(a Telegram crypto-tracker bot): the per-user in-memory collections
(`user_alerts`, `user_portfolio`, `user_favorites`, `user_balance`),
the periodic alert evaluator `check_alerts`, the command handlers
`create_alert`, `add_to_portfolio`, `add_favorite`, `deposit`, and the
payment callbacks `pre_checkout_handler` and
`successful_payment_handler`.

Modelling conventions:
* Python floats are IEEE-754 binary64 doubles, i.e. dyadic rationals;
  values are modelled as the exact `ℚ` they denote. The operations
  whose rounding the claims exercise — the portfolio merge `+=` of
  line 658 and the invoice conversion `int(amount * 100)` of line 921 —
  are modelled by `fadd` / `fmul`: correct rounding (round-to-nearest,
  ties-to-even) of the exact result, implemented by `roundDouble`.
  Comparisons of doubles agree with `ℚ` comparisons of the denoted
  values, so the bounds checks and trigger tests need no rounding step.
  Python ints are `ℕ` / `ℤ`.
* A Python dict keyed by strings is modelled as a function
  `String → Option ℚ`; absence of a key is `none`.
* External collaborators are modelled as explicit parameters: the price
  oracle (`get_crypto_price`) as `String → Option ℚ` (a `none` answer
  covers both a failed request and a response missing the id, which the
  source treats the same way at lines 243-244), and the notification
  transport (`context.bot.send_message`) as a success predicate, since
  the source only branches on whether the awaited send raised.
* Python `str.lower()` is modelled as `pyLower` (character-wise
  lowercasing of the underlying character list) and `int(x)` truncation
  toward zero as `pyInt`.
-/

namespace CryptoBot

abbrev UserId := ℕ

/-- Python `str.lower()`: lowercase every character of the string. -/
def pyLower (s : String) : String := String.mk (s.data.map Char.toLower)

/-- Python `int(x)` applied to a real value: truncation toward zero. -/
def pyInt (x : ℚ) : ℤ := x.num.tdiv x.den

/-- Round-half-to-even of the fraction `n / d` (for `d > 0`), on
integers: the rounding used by IEEE-754 binary64 arithmetic. -/
def roundHalfEvenInt (n d : ℤ) : ℤ :=
  let f := n / d
  let r2 := 2 * (n - f * d)
  if r2 < d then f
  else if d < r2 then f + 1
  else if f % 2 = 0 then f else f + 1

/-- Scale the positive fraction `a / d` into `[1, 2)` by doublings,
returning the floor of its base-2 logarithm; `fuel` bounds the loop
(1200 covers the whole binary64 range). -/
def log2floorAux : ℕ → ℕ → ℕ → ℤ → ℤ
  | 0, _, _, e => e
  | fuel + 1, a, d, e =>
    if a < d then log2floorAux fuel (2 * a) d (e - 1)
    else if 2 * d ≤ a then log2floorAux fuel a (2 * d) (e + 1)
    else e

/-- Correct rounding of a rational to the IEEE-754 binary64 grid
(53-bit significand, round-to-nearest, ties-to-even), with unbounded
exponent — overflow and subnormals are irrelevant at this program's
magnitudes. All arithmetic is on numerators and denominators so that
proofs can evaluate it. -/
def roundDouble (q : ℚ) : ℚ :=
  if q.num = 0 then 0
  else
    let s : ℤ := if q.num < 0 then -1 else 1
    let a := q.num.natAbs
    let d := q.den
    let e := log2floorAux 1200 a d 0
    if e ≤ 52 then
      let k := (52 - e).toNat
      mkRat (s * roundHalfEvenInt ((a : ℤ) * ((2 ^ k : ℕ) : ℤ)) (d : ℤ))
        (2 ^ k)
    else
      let k := (e - 52).toNat
      mkRat (s * roundHalfEvenInt (a : ℤ) ((d : ℤ) * ((2 ^ k : ℕ) : ℤ)) *
        ((2 ^ k : ℕ) : ℤ)) 1

/-- Python `float(...)` applied to a decimal value: the nearest binary64
double. -/
def pyFloat (q : ℚ) : ℚ := roundDouble q

/-- Exact rational addition computed on numerators and denominators;
`qadd_eq_add` proves it equal to `+` (whose `Rat.add` is sealed against
kernel reduction). -/
def qadd (a b : ℚ) : ℚ :=
  mkRat (a.num * (b.den : ℤ) + b.num * (a.den : ℤ)) (a.den * b.den)

/-- Exact rational multiplication computed on numerators and
denominators; `qmul_eq_mul` proves it equal to `*`. -/
def qmul (a b : ℚ) : ℚ := mkRat (a.num * b.num) (a.den * b.den)

/-- IEEE-754 binary64 addition: correct rounding of the exact sum. -/
def fadd (x y : ℚ) : ℚ := roundDouble (qadd x y)

/-- IEEE-754 binary64 multiplication: correct rounding of the exact
product. -/
def fmul (x y : ℚ) : ℚ := roundDouble (qmul x y)

/-- One entry of `user_alerts[user_id]`
(`{'crypto_id': str, 'target_price': float, 'direction': 'above'/'below'}`). -/
structure Alert where
  crypto_id : String
  target_price : ℚ
  direction : String
deriving DecidableEq

/-- The `CRYPTO_IDS` table of `crypto_bot.py` (id, ticker code pairs). -/
def CRYPTO_IDS : List (String × String) :=
  [("bitcoin", "btc"), ("ethereum", "eth"), ("binancecoin", "bnb"),
   ("solana", "sol"), ("cardano", "ada"), ("ripple", "xrp"),
   ("polkadot", "dot"), ("dogecoin", "doge"), ("tether", "usdt"),
   ("usd-coin", "usdc")]

/-- `find_crypto_id` (lines 66-76): lowercase the input, return the id of
the first `CRYPTO_IDS` entry whose id or lowered code matches, else the
lowered input unchanged. -/
def find_crypto_id (crypto_input : String) : String :=
  let c := pyLower crypto_input
  match CRYPTO_IDS.find? (fun p => c == p.1 || c == pyLower p.2) with
  | some p => p.1
  | none => c

/-- The trigger test of `check_alerts` (lines 246-253): `triggered` starts
false and is set by the `above`/`below` branches. -/
def triggered (alert : Alert) (current_price : ℚ) : Bool :=
  if alert.direction = "above" ∧ current_price ≥ alert.target_price then
    true
  else if alert.direction = "below" ∧ current_price ≤ alert.target_price then
    true
  else
    false

/-- One iteration of the inner loop of `check_alerts` (lines 238-260) for
one snapshot entry: query the oracle for this alert's id (the call to
`get_crypto_price` at line 243 happens on every iteration, so the query
is logged unconditionally in the first component), skip if the price is
unavailable, otherwise on a triggered alert attempt the send and remove
the alert from the live list only when the send did not raise. -/
def checkAlertStep (oracle : String → Option ℚ) (sendOk : Alert → Bool)
    (acc : List String × List Alert) (alert : Alert) :
    List String × List Alert :=
  let queries := acc.1 ++ [alert.crypto_id]
  match oracle alert.crypto_id with
  | none => (queries, acc.2)
  | some current_price =>
      if triggered alert current_price then
        if sendOk alert then (queries, acc.2.erase alert)
        else (queries, acc.2)
      else (queries, acc.2)

/-- The body of `check_alerts` for one user (lines 238-260): iterate over
the snapshot `alerts[:]` while mutating the live list, starting from the
same list. Returns the oracle query log and the final live list. -/
def checkUserAlerts (oracle : String → Option ℚ) (sendOk : Alert → Bool)
    (alerts : List Alert) : List String × List Alert :=
  alerts.foldl (checkAlertStep oracle sendOk) ([], alerts)

/-- `check_alerts` (lines 235-260): the loop over `user_alerts.items()`.
`sendOk u a` tells whether the notification send to user `u` for alert
`a` succeeds this tick. Returns the tick's oracle query log and the
resulting store. -/
def check_alerts (oracle : String → Option ℚ)
    (sendOk : UserId → Alert → Bool)
    (store : List (UserId × List Alert)) :
    List String × List (UserId × List Alert) :=
  store.foldl
    (fun acc e =>
      (acc.1 ++ (checkUserAlerts oracle (sendOk e.1) e.2).1,
       acc.2 ++ [(e.1, (checkUserAlerts oracle (sendOk e.1) e.2).2)]))
    ([], [])

/-- Whether one pass of `check_alerts` deletes a given alert value: the
price must be available, the alert triggered, and the send successful. -/
def alertRemoved (oracle : String → Option ℚ) (sendOk : Alert → Bool)
    (alert : Alert) : Bool :=
  match oracle alert.crypto_id with
  | none => false
  | some current_price => triggered alert current_price && sendOk alert

/-- Result of the storage part of `create_alert` (lines 780-809): the
direction check, the existence check against the price oracle, and on
success the appended alert list. -/
inductive CreateAlertResult where
  | invalidDirection : CreateAlertResult
  | cryptoNotFound : CreateAlertResult
  | created (alerts : List Alert) : CreateAlertResult
deriving DecidableEq

/-- `create_alert` (lines 780-809), after the argument-count and
`float(...)` parsing steps: reject a direction other than
`above`/`below` (line 789), normalize the crypto id (line 793), reject
an id the price oracle does not know (lines 796-799), otherwise append
the new alert to the user's list (lines 805-809). `known` models
`price_data and crypto_id in price_data`. There is no check on the sign
of `target_price`. -/
def create_alert (known : String → Bool) (alerts : List Alert)
    (crypto_input : String) (target_price : ℚ) (direction_input : String) :
    CreateAlertResult :=
  let direction := pyLower direction_input
  if direction ≠ "above" ∧ direction ≠ "below" then
    CreateAlertResult.invalidDirection
  else
    let crypto_id := find_crypto_id crypto_input
    if known crypto_id then
      CreateAlertResult.created
        (alerts ++ [{ crypto_id := crypto_id,
                      target_price := target_price,
                      direction := direction }])
    else
      CreateAlertResult.cryptoNotFound

/-- The mutation step of `add_to_portfolio` (lines 654-660): the merge
`user_portfolio[user_id][crypto_id] += amount` is binary64 float
addition, modelled by `fadd`; creating an absent entry stores the
parsed double unchanged. `portfolio` models the dict
`user_portfolio[user_id]`. There is no sign check on `amount` anywhere
in `add_to_portfolio`. -/
def add_to_portfolio (portfolio : String → Option ℚ) (crypto_id : String)
    (amount : ℚ) : String → Option ℚ :=
  fun c =>
    if c = crypto_id then
      match portfolio crypto_id with
      | some q => some (fadd q amount)
      | none => some amount
    else
      portfolio c

/-- Outcome reported by `add_favorite`. -/
inductive FavResult where
  | added : FavResult
  | alreadyPresent : FavResult
deriving DecidableEq

/-- The mutation step of `add_favorite` (lines 738-745): append the id if
it is not yet in the user's favorites list and report success, otherwise
leave the list alone and report that it is already present. -/
def add_favorite (favorites : List String) (crypto_id : String) :
    List String × FavResult :=
  if crypto_id ∈ favorites then
    (favorites, FavResult.alreadyPresent)
  else
    (favorites ++ [crypto_id], FavResult.added)

/-- Line 921 of `deposit`: `amount_in_tiyin = int(amount * 100)`. The
`amount` is a binary64 double, so the product `amount * 100` rounds to
the nearest double before `int` truncates toward zero. -/
def amount_in_tiyin (amount : ℚ) : ℤ := pyInt (fmul amount 100)

/-- Result of `deposit`: the three rejection branches (lines 904-916) or
the invoice sent to the payment gateway (lines 918-935), carrying the
synthesized payload and the minor-unit amount. -/
inductive DepositResult where
  | amountNotPositive : DepositResult
  | belowMinimum : DepositResult
  | aboveMaximum : DepositResult
  | invoice (payload : String) (tiyin : ℤ) : DepositResult
deriving DecidableEq

/-- Whether a `deposit` call produced an invoice. -/
def DepositResult.isInvoice : DepositResult → Bool
  | DepositResult.invoice _ _ => true
  | _ => false

/-- `deposit` (lines 902-935), after the digit-string precheck and
`float(...)` parse: reject `amount ≤ 0`, then `amount < 1000`, then
`amount > 10000000`; otherwise build the payload
`deposit_{user_id}_{timestamp}` and send the invoice with the amount
converted to tiyin (line 921). -/
def deposit (user_id : UserId) (timestamp : ℕ) (amount : ℚ) :
    DepositResult :=
  if amount ≤ 0 then
    DepositResult.amountNotPositive
  else if amount < 1000 then
    DepositResult.belowMinimum
  else if amount > 10000000 then
    DepositResult.aboveMaximum
  else
    DepositResult.invoice
      ("deposit_" ++ toString user_id ++ "_" ++ toString timestamp)
      (amount_in_tiyin amount)

/-- Python `str.startswith(pre)`. -/
def startswith (s pre : String) : Bool := pre.data.isPrefixOf s.data

/-- `pre_checkout_handler` (lines 945-959): answer `ok=False` when the
invoice payload does not start with `deposit_`, else `ok=True`. The
`except` branch around the positive answer only concerns the transport
call itself, so the accept decision is the prefix test. -/
def pre_checkout_handler (invoice_payload : String) : Bool :=
  if startswith invoice_payload "deposit_" = false then false else true

/-- The `successful_payment` object delivered by the gateway: the
round-tripped invoice payload and the settled total in minor units. -/
structure SuccessfulPayment where
  invoice_payload : String
  total_amount : ℤ
deriving DecidableEq

/-- `successful_payment_handler` (lines 961-985): return unchanged
balances when the update carries no payment; otherwise credit
`total_amount / 100.0` to the confirming user's balance, creating the
balance entry at `0.0` first when absent. The invoice payload is never
inspected. `balances` models the dict `user_balance`. -/
def successful_payment_handler (balances : UserId → Option ℚ)
    (user_id : UserId) (payment : Option SuccessfulPayment) :
    UserId → Option ℚ :=
  match payment with
  | none => balances
  | some payment =>
      let amount : ℚ := (payment.total_amount : ℚ) / 100
      fun u =>
        if u = user_id then some ((balances user_id).getD 0 + amount)
        else balances u

/-- Concrete oracle for evaluation: quotes 60000 for bitcoin only. -/
def ex1Oracle : String → Option ℚ :=
  fun c => if c = "bitcoin" then some 60000 else none

/-- Concrete alert for evaluation: bitcoin above 50000. -/
def ex1Alert : Alert :=
  { crypto_id := "bitcoin", target_price := 50000, direction := "above" }

/-- Concrete notification transport that always fails. -/
def ex1Send : Alert → Bool := fun _ => false

/-- Concrete one-user store with two alerts on the same asset. -/
def ex3Store : List (UserId × List Alert) :=
  [(1, [{ crypto_id := "bitcoin", target_price := 50000, direction := "above" },
        { crypto_id := "bitcoin", target_price := 40000, direction := "above" }])]

/-- Concrete one-entry portfolio holding the double 0.1 of bitcoin. -/
def ex9Portfolio : String → Option ℚ :=
  fun c => if c = "bitcoin" then some (pyFloat (mkRat 1 10)) else none

/-- The computable addition `qadd` is rational addition. -/
lemma qadd_eq_add (a b : ℚ) : qadd a b = a + b := by
  unfold qadd
  rw [Rat.mkRat_eq_divInt]
  push_cast
  rw [← Rat.divInt_add_divInt _ _ (by exact_mod_cast a.den_nz)
    (by exact_mod_cast b.den_nz)]
  rw [Rat.num_divInt_den, Rat.num_divInt_den]

/-- The computable multiplication `qmul` is rational multiplication. -/
lemma qmul_eq_mul (a b : ℚ) : qmul a b = a * b := by
  unfold qmul
  rw [Rat.mkRat_eq_divInt]
  push_cast
  rw [← Rat.divInt_mul_divInt']
  rw [Rat.num_divInt_den, Rat.num_divInt_den]

lemma checkAlertStep_eq (oracle : String → Option ℚ) (sendOk : Alert → Bool)
    (q : List String) (live : List Alert) (a : Alert) :
    checkAlertStep oracle sendOk (q, live) a =
      (q ++ [a.crypto_id],
       if alertRemoved oracle sendOk a = true then live.erase a else live) := by
  unfold checkAlertStep alertRemoved
  cases h : oracle a.crypto_id with
  | none => simp
  | some p =>
      by_cases ht : triggered a p = true
      · by_cases hs : sendOk a = true
        · simp [ht, hs]
        · simp [ht, hs]
      · simp [ht]

lemma checkUserAlerts_aux (oracle : String → Option ℚ)
    (sendOk : Alert → Bool) :
    ∀ (s k : List Alert) (q : List String),
      (∀ x ∈ k, alertRemoved oracle sendOk x = false) →
      List.foldl (checkAlertStep oracle sendOk) (q, k ++ s) s =
        (q ++ s.map Alert.crypto_id,
         k ++ s.filter (fun x => !alertRemoved oracle sendOk x)) := by
  intro s
  induction s with
  | nil => intro k q hk; simp
  | cons a rest ih =>
      intro k q hk
      rw [List.foldl_cons, checkAlertStep_eq]
      by_cases h : alertRemoved oracle sendOk a = true
      · have ha : a ∉ k := fun hma => by
          have := hk a hma
          rw [this] at h
          exact Bool.false_ne_true h
        rw [if_pos h, List.erase_append_right _ ha, List.erase_cons_head,
          ih k (q ++ [a.crypto_id]) hk]
        simp [h]
      · have h' : alertRemoved oracle sendOk a = false :=
          Bool.not_eq_true _ ▸ (by simpa using h)
        rw [if_neg h]
        have hk' : ∀ x ∈ k ++ [a], alertRemoved oracle sendOk x = false := by
          intro x hx
          rcases List.mem_append.1 hx with hx | hx
          · exact hk x hx
          · rcases List.mem_singleton.1 hx with rfl
            exact h'
        have hshape : k ++ a :: rest = (k ++ [a]) ++ rest := by simp
        rw [hshape, ih (k ++ [a]) (q ++ [a.crypto_id]) hk']
        simp [h']

/-- Closed form of one user's pass of `check_alerts`: the oracle is
queried once per alert of the snapshot, and the surviving list is the
original list with exactly the price-known, triggered, successfully-sent
alerts erased. -/
lemma checkUserAlerts_spec (oracle : String → Option ℚ)
    (sendOk : Alert → Bool) (alerts : List Alert) :
    checkUserAlerts oracle sendOk alerts =
      (alerts.map Alert.crypto_id,
       alerts.filter (fun x => !alertRemoved oracle sendOk x)) := by
  unfold checkUserAlerts
  have := checkUserAlerts_aux oracle sendOk alerts [] [] (by simp)
  simpa using this

/-- Claim C2: for every alert with a known current price, the evaluator
triggers it exactly when (direction = above and currentPrice ≥
targetPrice) or (direction = below and currentPrice ≤ targetPrice); in
particular a current price equal to the target price always triggers,
for both directions (instantiate `current_price := alert.target_price`
and the right-hand side holds for whichever valid direction the alert
carries). -/
theorem trigger_iff_boundary_inclusive (alert : Alert) (current_price : ℚ) :
    triggered alert current_price = true ↔
      ((alert.direction = "above" ∧ current_price ≥ alert.target_price) ∨
       (alert.direction = "below" ∧ current_price ≤ alert.target_price)) := by
  unfold triggered
  split_ifs with h1 h2
  · simp [h1]
  · simp [h2]
  · simp only [Bool.false_eq_true, false_iff]
    rintro (h | h)
    · exact h1 h
    · exact h2 h

/-- Claim C9, counterexample: the merge of `add_to_portfolio` is
binary64 float addition, which is not associative: starting from a
holding of 0.1 of bitcoin, adding 0.2 and then 0.3 stores
0.6000000000000001 (the double 5404319552844596/2^53), while adding
their sum 0.5 once stores 0.6 (the double 5404319552844595/2^53). -/
theorem add_to_portfolio_assoc_cx :
    (mkRat 2 10 : ℚ) + mkRat 3 10 = mkRat 5 10 ∧
    (add_to_portfolio (add_to_portfolio ex9Portfolio "bitcoin"
        (pyFloat (mkRat 2 10))) "bitcoin" (pyFloat (mkRat 3 10)))
        "bitcoin" =
      some (mkRat 5404319552844596 (2 ^ 53)) ∧
    (add_to_portfolio ex9Portfolio "bitcoin" (pyFloat (mkRat 5 10)))
        "bitcoin" =
      some (mkRat 5404319552844595 (2 ^ 53)) ∧
    mkRat 5404319552844596 (2 ^ 53) ≠ mkRat 5404319552844595 (2 ^ 53) := by
  refine ⟨?_, by decide, by decide, by decide⟩
  rw [← qadd_eq_add]
  decide

/-- Claim C9, amended: the merge applies binary64 addition in call
order: on a portfolio holding quantity `q` of the asset, adding `a` and
then `b` stores `fadd (fadd q a) b`. As the counterexample shows, float
addition is not associative, so this can differ from adding the sum
once. -/
theorem add_to_portfolio_merge_sequential (portfolio : String → Option ℚ)
    (crypto_id : String) (a b q : ℚ)
    (hq : portfolio crypto_id = some q) :
    (add_to_portfolio (add_to_portfolio portfolio crypto_id a) crypto_id b)
        crypto_id = some (fadd (fadd q a) b) := by
  simp [add_to_portfolio, hq]

/-- Witness for `add_to_portfolio_merge_sequential` at the doubles for
0.1, 0.2 and 0.3. -/
theorem add_to_portfolio_merge_sequential_witness :
    ex9Portfolio "bitcoin" = some (pyFloat (mkRat 1 10)) ∧
    (add_to_portfolio (add_to_portfolio ex9Portfolio "bitcoin"
        (pyFloat (mkRat 2 10))) "bitcoin" (pyFloat (mkRat 3 10)))
        "bitcoin" =
      some (fadd (fadd (pyFloat (mkRat 1 10)) (pyFloat (mkRat 2 10)))
        (pyFloat (mkRat 3 10))) :=
  ⟨by decide,
   add_to_portfolio_merge_sequential ex9Portfolio "bitcoin"
     (pyFloat (mkRat 2 10)) (pyFloat (mkRat 3 10)) (pyFloat (mkRat 1 10))
     (by decide)⟩

/-- Claim C5, counterexample: the claim says a non-positive quantity
fails with InvalidAmount and leaves the portfolio unchanged, but
`add_to_portfolio` has no sign check: adding quantity -5 of bitcoin to
an empty portfolio stores the entry `bitcoin ↦ -5`, changing the
portfolio. -/
theorem add_to_portfolio_negative_cx :
    ((-5 : ℚ) ≤ 0) ∧
    add_to_portfolio (fun _ => none) "bitcoin" (-5) "bitcoin" =
      some (-5) ∧
    (fun _ => (none : Option ℚ)) "bitcoin" ≠ some (-5) := by
  refine ⟨by norm_num, ?_, by simp⟩
  simp [add_to_portfolio]

/-- Claim C5, amended: `add_to_portfolio` performs no validation on the
quantity's sign: for every quantity, positive or not, it float-adds the
quantity to the existing entry (or creates the entry at that quantity if
absent) and leaves every other asset's entry unchanged. -/
theorem add_to_portfolio_additive_merge (portfolio : String → Option ℚ)
    (crypto_id : String) (amount : ℚ) (other : String) :
    (add_to_portfolio portfolio crypto_id amount) crypto_id =
      some ((portfolio crypto_id).elim amount (fun q => fadd q amount)) ∧
    (other ≠ crypto_id →
      (add_to_portfolio portfolio crypto_id amount) other =
        portfolio other) := by
  constructor
  · cases hq : portfolio crypto_id <;> simp [add_to_portfolio, hq]
  · intro h
    simp [add_to_portfolio, h]

/-- Witness for `add_to_portfolio_additive_merge` at a concrete input. -/
theorem add_to_portfolio_additive_merge_witness :
    (add_to_portfolio (fun _ => none) "bitcoin" 2) "bitcoin" = some 2 ∧
    ("ethereum" : String) ≠ "bitcoin" ∧
    (add_to_portfolio (fun _ => none) "bitcoin" 2) "ethereum" = none := by
  refine ⟨?_, by decide, ?_⟩
  · simpa using
      (add_to_portfolio_additive_merge (fun _ => none) "bitcoin" 2
        "ethereum").1
  · simpa using
      (add_to_portfolio_additive_merge (fun _ => none) "bitcoin" 2
        "ethereum").2 (by decide)

/-- Claim C8: `add_favorite` is idempotent: starting from a favorites
list not containing the asset, the first call appends it and reports
Added, the list then holds exactly one occurrence of the asset, and the
second call reports AlreadyPresent and leaves the list unchanged. -/
theorem add_favorite_idempotent (favorites : List String)
    (crypto_id : String) (h : crypto_id ∉ favorites) :
    (add_favorite favorites crypto_id).2 = FavResult.added ∧
    (add_favorite favorites crypto_id).1.count crypto_id = 1 ∧
    (add_favorite (add_favorite favorites crypto_id).1 crypto_id).2 =
      FavResult.alreadyPresent ∧
    (add_favorite (add_favorite favorites crypto_id).1 crypto_id).1 =
      (add_favorite favorites crypto_id).1 := by
  have h1 : add_favorite favorites crypto_id =
      (favorites ++ [crypto_id], FavResult.added) := by
    simp [add_favorite, h]
  have hmem : crypto_id ∈ favorites ++ [crypto_id] := by simp
  have h2 : add_favorite (favorites ++ [crypto_id]) crypto_id =
      (favorites ++ [crypto_id], FavResult.alreadyPresent) := by
    simp [add_favorite, hmem]
  rw [h1]
  refine ⟨rfl, ?_, ?_, ?_⟩
  · simp [List.count_append, List.count_eq_zero.2 h]
  · rw [h2]
  · rw [h2]

/-- Witness for `add_favorite_idempotent` at a concrete input. -/
theorem add_favorite_idempotent_witness :
    ("bitcoin" : String) ∉ ["ethereum"] ∧
    ((add_favorite ["ethereum"] "bitcoin").2 = FavResult.added ∧
     (add_favorite ["ethereum"] "bitcoin").1.count "bitcoin" = 1 ∧
     (add_favorite (add_favorite ["ethereum"] "bitcoin").1 "bitcoin").2 =
       FavResult.alreadyPresent ∧
     (add_favorite (add_favorite ["ethereum"] "bitcoin").1 "bitcoin").1 =
       (add_favorite ["ethereum"] "bitcoin").1) :=
  ⟨by decide, add_favorite_idempotent ["ethereum"] "bitcoin" (by decide)⟩

/-- Claim C6: `deposit` produces an invoice exactly for amounts in the
closed interval [1000, 10000000]; at the claim's sample points, 999
fails on the minimum bound, 1000 and 10000000 produce invoices, and
10000001 fails on the maximum bound. -/
theorem deposit_accepts_iff_in_bounds :
    (∀ (u ts : ℕ) (amount : ℚ),
        (deposit u ts amount).isInvoice = true ↔
          (1000 ≤ amount ∧ amount ≤ 10000000)) ∧
    deposit 7 0 999 = DepositResult.belowMinimum ∧
    (deposit 7 0 1000).isInvoice = true ∧
    (deposit 7 0 10000000).isInvoice = true ∧
    deposit 7 0 10000001 = DepositResult.aboveMaximum := by
  refine ⟨?_, by decide, by decide, by decide, by decide⟩
  intro u ts amount
  unfold deposit
  split_ifs with h1 h2 h3
  · simp only [DepositResult.isInvoice, Bool.false_eq_true, false_iff]
    rintro ⟨ha, -⟩
    linarith
  · simp only [DepositResult.isInvoice, Bool.false_eq_true, false_iff]
    rintro ⟨ha, -⟩
    linarith
  · simp only [DepositResult.isInvoice, Bool.false_eq_true, false_iff]
    rintro ⟨-, hb⟩
    linarith
  · simp only [DepositResult.isInvoice, true_iff]
    push_neg at h2 h3
    exact ⟨h2, h3⟩

/-- Claim C7, counterexample: the claim says the conversions round-trip
exactly for every integral-cent input, but for the in-bounds
integral-cent amount 1024.10 — accepted by `deposit` — the binary64
parse is one ulp below 1024.1 and the double product `amount * 100`
rounds to one ulp below 102410, so the truncation yields gateway amount
102409, not 102410. -/
theorem minor_unit_roundtrip_cx :
    (1000 : ℚ) ≤ pyFloat (mkRat 102410 100) ∧
    pyFloat (mkRat 102410 100) ≤ 10000000 ∧
    (deposit 7 0 (pyFloat (mkRat 102410 100))).isInvoice = true ∧
    amount_in_tiyin (pyFloat (mkRat 102410 100)) = 102409 ∧
    (102409 : ℤ) ≠ 102410 := by
  decide

/-- Claim C7, amended: the creation-side conversion truncates the
correctly rounded double product `int(amount * 100)`, so the round-trip
is exact only when that product does not round below the integer. It is
exact at the claim's sample: an invoice for (the double parsed from)
123.45 yields gateway amount 12345, and a settled total of 12345
credits exactly 123.45 to the confirming user's balance — but not for
every integral-cent input (1024.10 yields 102409). -/
theorem minor_unit_roundtrip_sample :
    amount_in_tiyin (pyFloat (mkRat 12345 100)) = 12345 ∧
    (∀ (balances : UserId → Option ℚ) (u : UserId) (p : String),
      successful_payment_handler balances u
          (some { invoice_payload := p, total_amount := 12345 }) u =
        some ((balances u).getD 0 + (123.45 : ℚ))) := by
  refine ⟨by decide, ?_⟩
  intro balances u p
  unfold successful_payment_handler
  norm_num

/-- Claim C1: an alert that the evaluator finds triggered in a tick
(price known and trigger condition met) ends the tick absent from the
user's alert sequence exactly when its notification send succeeded, and
on a failed send every occurrence of it survives unchanged (so it is
evaluated again on the next tick). -/
theorem triggered_alert_removed_iff_sent (oracle : String → Option ℚ)
    (sendOk : Alert → Bool) (alerts : List Alert) (a : Alert) (p : ℚ)
    (hmem : a ∈ alerts) (hp : oracle a.crypto_id = some p)
    (ht : triggered a p = true) :
    (a ∉ (checkUserAlerts oracle sendOk alerts).2 ↔ sendOk a = true) ∧
    (checkUserAlerts oracle sendOk alerts).2.count a =
      (if sendOk a = true then 0 else alerts.count a) := by
  have hrm : alertRemoved oracle sendOk a = sendOk a := by
    unfold alertRemoved
    rw [hp]
    simp [ht]
  rw [checkUserAlerts_spec]
  by_cases hs : sendOk a = true
  · have hnot : a ∉ alerts.filter (fun x => !alertRemoved oracle sendOk x) := by
      intro hin
      have hx := (List.mem_filter.1 hin).2
      rw [hrm, hs] at hx
      simp at hx
    exact ⟨⟨fun _ => hs, fun _ => hnot⟩,
           by rw [if_pos hs, List.count_eq_zero.2 hnot]⟩
  · have hs' : sendOk a = false := by simpa using hs
    have hpred : (fun x => !alertRemoved oracle sendOk x) a = true := by
      simp [hrm, hs']
    have hin : a ∈ alerts.filter (fun x => !alertRemoved oracle sendOk x) :=
      List.mem_filter.2 ⟨hmem, hpred⟩
    exact ⟨⟨fun hna => absurd hin hna, fun hc => absurd hc hs⟩,
           by rw [if_neg hs]; exact List.count_filter hpred⟩

/-- Witness for `triggered_alert_removed_iff_sent`: a triggered bitcoin
alert whose send fails stays in the sequence with its count intact. -/
theorem triggered_alert_removed_iff_sent_witness :
    ex1Alert ∈ [ex1Alert] ∧
    ex1Oracle ex1Alert.crypto_id = some 60000 ∧
    triggered ex1Alert 60000 = true ∧
    ((ex1Alert ∉ (checkUserAlerts ex1Oracle ex1Send [ex1Alert]).2 ↔
        ex1Send ex1Alert = true) ∧
     (checkUserAlerts ex1Oracle ex1Send [ex1Alert]).2.count ex1Alert =
       (if ex1Send ex1Alert = true then 0 else [ex1Alert].count ex1Alert)) :=
  ⟨by decide, by decide, by decide,
   triggered_alert_removed_iff_sent ex1Oracle ex1Send [ex1Alert] ex1Alert
     60000 (by decide) (by decide) (by decide)⟩

lemma check_alerts_aux (oracle : String → Option ℚ)
    (sendOk : UserId → Alert → Bool) :
    ∀ (store : List (UserId × List Alert)) (q : List String)
      (acc : List (UserId × List Alert)),
      store.foldl
          (fun acc e =>
            (acc.1 ++ (checkUserAlerts oracle (sendOk e.1) e.2).1,
             acc.2 ++ [(e.1, (checkUserAlerts oracle (sendOk e.1) e.2).2)]))
          (q, acc) =
        (q ++ (store.map (fun e => e.2.map Alert.crypto_id)).flatten,
         acc ++ store.map
           (fun e => (e.1, (checkUserAlerts oracle (sendOk e.1) e.2).2))) := by
  intro store
  induction store with
  | nil => intro q acc; simp
  | cons e rest ih =>
      intro q acc
      rw [List.foldl_cons, ih]
      have h1 : (checkUserAlerts oracle (sendOk e.1) e.2).1 =
          e.2.map Alert.crypto_id := by
        rw [checkUserAlerts_spec]
      simp [h1]

/-- Claim C3, counterexample: the claim says each tick issues exactly one
batched oracle query for the distinct set of referenced asset ids, but
on a store with two alerts both referencing bitcoin (one distinct asset)
the tick queries the oracle twice, once per alert. -/
theorem one_query_per_tick_cx :
    (ex3Store.map (fun e => e.2.map Alert.crypto_id)).flatten.dedup =
      ["bitcoin"] ∧
    (check_alerts (fun _ => some 60000) (fun _ _ => true) ex3Store).1 =
      ["bitcoin", "bitcoin"] ∧
    (check_alerts (fun _ => some 60000) (fun _ _ => true) ex3Store).1.length
      ≠ 1 := by
  decide

/-- Claim C3, amended: `check_alerts` queries the price oracle once per
outstanding alert, for that alert's asset id, in store order — not once
per tick for the batched distinct set: the tick's query log is the
concatenation of every user's per-alert asset ids, so its length is the
total number of outstanding alerts. -/
theorem one_query_per_alert (oracle : String → Option ℚ)
    (sendOk : UserId → Alert → Bool) (store : List (UserId × List Alert)) :
    (check_alerts oracle sendOk store).1 =
      (store.map (fun e => e.2.map Alert.crypto_id)).flatten ∧
    (check_alerts oracle sendOk store).1.length =
      (store.map (fun e => e.2.length)).sum := by
  have h : (check_alerts oracle sendOk store).1 =
      (store.map (fun e => e.2.map Alert.crypto_id)).flatten := by
    unfold check_alerts
    rw [check_alerts_aux]
    simp
  refine ⟨h, ?_⟩
  rw [h]
  rw [List.length_flatten, List.map_map]
  have hlen : (List.length ∘ fun e : UserId × List Alert =>
      List.map Alert.crypto_id e.2) = fun e => e.2.length := by
    funext e
    simp
  rw [hlen]

/-- Claim C4, counterexample: the claim says `create_alert` never stores
an alert whose target price is zero or negative, but a call with target
price -5 and a known crypto id succeeds and stores the alert with
`target_price = -5`, so the invariant `targetPrice > 0` does not hold in
every reachable state. -/
theorem alert_target_positive_cx :
    create_alert (fun _ => true) [] "bitcoin" (-5) "above" =
      CreateAlertResult.created
        [{ crypto_id := "bitcoin", target_price := -5,
           direction := "above" }] ∧
    ¬ ((-5 : ℚ) > 0) := by
  refine ⟨by decide, by norm_num⟩

/-- Claim C4, amended: `create_alert` validates only the direction and
the existence of the crypto id; it performs no check on the target
price, storing the alert exactly as given for every target price,
including zero and negative ones. -/
theorem create_alert_no_target_check (known : String → Bool)
    (alerts : List Alert) (crypto_input : String) (target_price : ℚ)
    (direction_input : String)
    (hdir : pyLower direction_input = "above" ∨
            pyLower direction_input = "below")
    (hknown : known (find_crypto_id crypto_input) = true) :
    create_alert known alerts crypto_input target_price direction_input =
      CreateAlertResult.created
        (alerts ++ [{ crypto_id := find_crypto_id crypto_input,
                      target_price := target_price,
                      direction := pyLower direction_input }]) := by
  have h1 : ¬ (pyLower direction_input ≠ "above" ∧
               pyLower direction_input ≠ "below") := by
    rcases hdir with h | h <;> simp [h]
  simp [create_alert, h1, hknown]

/-- Witness for `create_alert_no_target_check`: a zero target price is
stored as given. -/
theorem create_alert_no_target_check_witness :
    (pyLower "above" = "above" ∨ pyLower "above" = "below") ∧
    ((fun _ => true) (find_crypto_id "bitcoin") = true) ∧
    create_alert (fun _ => true) [] "bitcoin" 0 "above" =
      CreateAlertResult.created
        ([] ++ [{ crypto_id := find_crypto_id "bitcoin",
                  target_price := 0,
                  direction := pyLower "above" }]) :=
  ⟨by decide, by decide,
   create_alert_no_target_check (fun _ => true) [] "bitcoin" 0 "above"
     (by decide) (by decide)⟩

/-- Claim C10: `successful_payment_handler` credits `total_amount / 100`
to the confirming user's balance without inspecting the invoice payload:
even for a payment whose payload lacks the `deposit_` prefix (so that
`pre_checkout_handler` would answer `ok=False`), the balance is credited
and, for a positive settled total, strictly increases. -/
theorem payment_credit_ignores_payload (balances : UserId → Option ℚ)
    (user_id : UserId) (payment : SuccessfulPayment)
    (_hpre : pre_checkout_handler payment.invoice_payload = false)
    (hpos : 0 < payment.total_amount) :
    successful_payment_handler balances user_id (some payment) user_id =
      some ((balances user_id).getD 0 +
        (payment.total_amount : ℚ) / 100) ∧
    (balances user_id).getD 0 <
      ((successful_payment_handler balances user_id (some payment))
          user_id).getD 0 := by
  have hq : (0 : ℚ) < (payment.total_amount : ℚ) / 100 := by
    have ht : (0 : ℚ) < (payment.total_amount : ℚ) := by
      exact_mod_cast hpos
    exact div_pos ht (by norm_num)
  constructor
  · simp [successful_payment_handler]
  · simp only [successful_payment_handler, if_pos rfl, Option.getD_some]
    linarith

/-- Witness for `payment_credit_ignores_payload`: a settled payment with
payload `refund_1` (rejected by the pre-checkout prefix test) still
credits 500/100 = 5 to the balance. -/
theorem payment_credit_ignores_payload_witness :
    pre_checkout_handler "refund_1" = false ∧
    (0 : ℤ) < 500 ∧
    successful_payment_handler (fun _ => none) 1
        (some { invoice_payload := "refund_1", total_amount := 500 }) 1 =
      some 5 := by
  have h := payment_credit_ignores_payload (fun _ => none) 1
    { invoice_payload := "refund_1", total_amount := 500 }
    (by decide) (by decide)
  refine ⟨by decide, by decide, ?_⟩
  rw [h.1]
  norm_num

end CryptoBot
